import Mathlib

/-!
Verification of the raw-data aggregation and normalization pipeline of the
Multi_Agent_Financial_Analysts repository: ticker resolution, SEC filing-fact
extraction (`sec_financials.py`), price-series metrics (`price_trend.py`),
news shaping (`finnhub_news.py`), the aggregation hub and its JSON
persistence helpers (`collect_raw_data.py`).

Numbers that are Python floats in the source are modelled as rationals (ℚ);
Python `None` is `Option.none`; dict-shaped returns with varying key sets are
records of optional fields.  Network fetches are modelled by passing the
fetched payload (or its failure) as an explicit argument.
-/

/-- Python truthiness of an optional number: `None` and `0`/`0.0` are falsy,
every other number is truthy. -/
def pytruthy : Option ℚ → Bool
  | none => false
  | some x => x != 0

/-- Python `a or b` on optional numbers: returns `a` when `a` is truthy,
otherwise `b` (so a present `0.0` in `a` falls through to `b`, and the
result is whatever `b` is, even `None` or `0.0`). -/
def pyOr (a b : Option ℚ) : Option ℚ := if pytruthy a then a else b

/-! ## sec_financials.py -/

/-- One entry of the unit value list of a tag in the SEC company-facts document:
the keys `fp`, `form`, `end`, `fy` and `val` that `latest_annual_value` and
`get_us_gaap` read.  `end` is a Lean keyword, so the field is called `endD`. -/
structure FactEntry where
  fp : Option String
  form : Option String
  endD : Option String
  fy : Option Int
  val : ℚ
deriving DecidableEq

/-- Reads a non-empty all-digit run of characters as a natural number;
`none` otherwise. -/
def digitsToNat? (cs : List Char) : Option Nat :=
  if cs ≠ [] ∧ cs.all Char.isDigit then
    some (cs.foldl (fun n c => n * 10 + (c.toNat - 48)) 0)
  else none

/-- Splits a character list on a separator character (like `str.split`). -/
def splitOnChar (sep : Char) : List Char → List (List Char)
  | [] => [[]]
  | c :: cs =>
    let r := splitOnChar sep cs
    if c = sep then [] :: r
    else
      match r with
      | [] => [[c]]
      | g :: gs => (c :: g) :: gs

/-- Gregorian leap-year test. -/
def isLeapYear (y : Nat) : Bool := (y % 4 == 0 && y % 100 != 0) || y % 400 == 0

/-- Number of days in a month of a given year. -/
def daysInMonth (y m : Nat) : Nat :=
  if m = 2 then (if isLeapYear y then 29 else 28)
  else if m = 4 ∨ m = 6 ∨ m = 9 ∨ m = 11 then 30
  else 31

/-- Models `datetime.datetime.fromisoformat` on the date-only `YYYY-MM-DD`
strings the SEC `end` field carries: exactly three dash-separated groups of
4, 2 and 2 digits forming a valid calendar date (year ≥ 1).  Any other
string is unparseable (`none`), which `parse_date` in the source turns into
`datetime.min`. -/
def parseIsoDate (s : String) : Option (Nat × Nat × Nat) :=
  match splitOnChar '-' s.data with
  | [ys, ms, ds] =>
    if ys.length = 4 ∧ ms.length = 2 ∧ ds.length = 2 then
      match digitsToNat? ys, digitsToNat? ms, digitsToNat? ds with
      | some y, some m, some d =>
        if 1 ≤ y ∧ 1 ≤ m ∧ m ≤ 12 ∧ 1 ≤ d ∧ d ≤ daysInMonth y m then some (y, m, d)
        else none
      | _, _, _ => none
    else none
  | _ => none

/-- Encodes `datetime.min` (0001-01-01) under the order-preserving encoding
`y * 10000 + m * 100 + d` of validated dates. -/
def dateMin : Nat := 10101

/-- The primary sort key of `latest_annual_value`: the parsed `end` date,
with a missing or unparseable date standing in as `datetime.min` (the
`parse_date` in the source).  Dates are encoded as `y * 10000 + m * 100 + d`,
which is order-isomorphic to datetime comparison on the validated ranges
(month ≤ 12 and day ≤ 31 both fit in two decimal digits). -/
def dateKey (v : FactEntry) : Nat :=
  match v.endD.bind parseIsoDate with
  | some (y, m, d) => y * 10000 + m * 100 + d
  | none => dateMin

/-- The full sort key `(parse_date(v), int(v.get("fy", 0)))`. -/
def entryKey (v : FactEntry) : Nat × Int := (dateKey v, v.fy.getD 0)

/-- Lexicographic order on sort keys, as Python compares the tuples. -/
def keyLE (a b : Nat × Int) : Bool :=
  decide (a.1 < b.1) || (decide (a.1 = b.1) && decide (a.2 ≤ b.2))

/-- The comparator realising `sort(key=..., reverse=True)`: `u` may come
before `v` exactly when the key of `u` is at least the key of `v`. -/
def descKey (u v : FactEntry) : Bool := keyLE (entryKey v) (entryKey u)

/-- Inserts `x` in front of the first element `y` with `r x y`; `x` stands
for an element originally to the left of every element of the list. -/
def insertBy {α : Type} (r : α → α → Bool) (x : α) : List α → List α
  | [] => [x]
  | y :: ys => if r x y then x :: y :: ys else y :: insertBy r x ys

/-- Stable sort by the comparator `r` (`r x y` = `x` may come before `y`).
The Python `list.sort` / `sorted` is a stable sort, and a stable sort by a
total preorder is uniquely determined, so this insertion sort computes
exactly the list the `sort(key=..., reverse=True)` call of the source produces. -/
def sortBy {α : Type} (r : α → α → Bool) : List α → List α
  | [] => []
  | x :: xs => insertBy r x (sortBy r xs)

/-- The annual filter of `latest_annual_value`: fiscal period `FY` or form
`10-K`/`20-F` (a missing key compares unequal). -/
def isAnnual (v : FactEntry) : Bool :=
  v.fp == some "FY" || (v.form == some "10-K" || v.form == some "20-F")

/-- The candidate list after the annual filter, falling back to the whole
list when no entry is annual. -/
def annualsOf (values : List FactEntry) : List FactEntry :=
  let annuals := values.filter isAnnual
  if annuals.isEmpty then values else annuals

/-- Models `latest_annual_value`: restrict to annual entries (with fallback), sort
descending by `(parsed end date, fiscal year)` and take the first entry;
`none` on an empty list. -/
def latest_annual_value (values : List FactEntry) : Option FactEntry :=
  (sortBy descKey (annualsOf values)).head?

/-- The nineteen per-tag results of `get_us_gaap` that `pull_sec_financials`
combines (each `g(tag)` call, in source order); `none` models a tag that is
missing or failed to extract. -/
structure GaapTags where
  revenueFromContract : Option ℚ
  salesRevenueNet : Option ℚ
  revenues : Option ℚ
  grossProfit : Option ℚ
  operatingIncomeLoss : Option ℚ
  operatingIncome : Option ℚ
  netIncomeLoss : Option ℚ
  profitLoss : Option ℚ
  assetsCurrent : Option ℚ
  liabilitiesCurrent : Option ℚ
  equityIncludingNCI : Option ℚ
  stockholdersEquity : Option ℚ
  cashAtCarryingValue : Option ℚ
  cashAndShortTermInvestments : Option ℚ
  longTermDebtNoncurrent : Option ℚ
  longTermDebt : Option ℚ
  longTermDebtCurrent : Option ℚ
  shortTermBorrowings : Option ℚ
  commercialPaper : Option ℚ
deriving DecidableEq

/-- The dict returned by `pull_sec_financials`: thirteen keys, each a number
or `None`. -/
structure FinancialFacts where
  revenue : Option ℚ
  gross_profit : Option ℚ
  operating_income : Option ℚ
  net_income : Option ℚ
  cash : Option ℚ
  current_assets : Option ℚ
  current_liabilities : Option ℚ
  equity : Option ℚ
  total_debt : Option ℚ
  gross_margin : Option ℚ
  operating_margin : Option ℚ
  current_ratio : Option ℚ
  debt_to_equity : Option ℚ
deriving DecidableEq

/-- The four optional debt components of line 68 of `sec_financials.py`:
`lt_debt` (itself an `or`-chain), `current_portion_lt_debt`, `st_borrow`,
`commercial_paper`. -/
def debtComponents (t : GaapTags) : List (Option ℚ) :=
  [pyOr t.longTermDebtNoncurrent t.longTermDebt,
   t.longTermDebtCurrent, t.shortTermBorrowings, t.commercialPaper]

/-- Models `sum([v for v in [...] if v is not None])`: the sum of the present debt
components (`0` when all four are absent). -/
def debtSum (t : GaapTags) : ℚ := ((debtComponents t).filterMap id).sum

/-- Models `(num / den) if den and num is not None else None` — the guard of
`gross_margin` and `operating_margin` (line 70/71): denominator truthy,
numerator merely present. -/
def ratioDenTruthy (num den : Option ℚ) : Option ℚ :=
  match den, num with
  | some r, some x => if r ≠ 0 then some (x / r) else none
  | _, _ => none

/-- Models `(a / l) if a and l else None` — the guard of `current_ratio`
(line 72): both operands truthy. -/
def ratioBothTruthy (a l : Option ℚ) : Option ℚ :=
  match a, l with
  | some x, some y => if x ≠ 0 ∧ y ≠ 0 then some (x / y) else none
  | _, _ => none

/-- Models `(total_debt / equity) if equity and total_debt is not None else None` —
the guard of `debt_to_equity` (line 73).  The local `total_debt` is the
plain number `debtSum` and never `None`, so only the equity guard bites. -/
def ratioNumPlain (td : ℚ) (den : Option ℚ) : Option ℚ :=
  match den with
  | some e => if e ≠ 0 then some (td / e) else none
  | none => none

/-- Models `pull_sec_financials` from the point where the per-tag extractions have
been performed (lines 55-89 of `sec_financials.py`).  The `or`-chains use
Python truthiness (`pyOr`); each ratio guard mirrors its source condition
exactly: `revenue and gross_profit is not None`,
`current_assets and current_liabilities`, `equity and total_debt is not
None` (the local `total_debt` is the plain number `debtSum`, never `None`,
so that last conjunct is vacuous), and the returned `total_debt` key gets
`None` when the sum is `0`. -/
def pull_sec_financials (t : GaapTags) : FinancialFacts :=
  let revenue := pyOr (pyOr t.revenueFromContract t.salesRevenueNet) t.revenues
  let gross_profit := t.grossProfit
  let operating_income := pyOr t.operatingIncomeLoss t.operatingIncome
  let net_income := pyOr t.netIncomeLoss t.profitLoss
  let current_assets := t.assetsCurrent
  let current_liabilities := t.liabilitiesCurrent
  let equity := pyOr t.equityIncludingNCI t.stockholdersEquity
  let cash := pyOr t.cashAtCarryingValue t.cashAndShortTermInvestments
  let total_debt : ℚ := debtSum t
  let gross_margin := ratioDenTruthy gross_profit revenue
  let operating_margin := ratioDenTruthy operating_income revenue
  let current_ratio := ratioBothTruthy current_assets current_liabilities
  let debt_to_equity := ratioNumPlain total_debt equity
  { revenue := revenue
    gross_profit := gross_profit
    operating_income := operating_income
    net_income := net_income
    cash := cash
    current_assets := current_assets
    current_liabilities := current_liabilities
    equity := equity
    total_debt := if total_debt ≠ 0 then some total_debt else none
    gross_margin := gross_margin
    operating_margin := operating_margin
    current_ratio := current_ratio
    debt_to_equity := debt_to_equity }

/-! ## price_trend.py -/

/-- The dict returned by `pull_price_trend_yf`: either the seven-key
success shape or the one-key `{"error": ...}` shape, modelled as one record
of optional fields. -/
structure PriceMetrics where
  error : Option String
  latest_close : Option ℚ
  oldest_close : Option ℚ
  pct_change : Option ℚ
  sma20 : Option ℚ
  sma50 : Option ℚ
  annualized_vol : Option ℚ
  sample : Option (List (String × ℚ))
deriving DecidableEq

/-- The `{"error": <msg>}` result: only the error key, no numeric field. -/
def priceError (e : String) : PriceMetrics :=
  { error := some e, latest_close := none, oldest_close := none, pct_change := none,
    sma20 := none, sma50 := none, annualized_vol := none, sample := none }

/-- What the price fetch produced: `raise` models `yf.Ticker`/`history`
raising (any exception message), `hist` the returned daily table as
`(date index, Close)` rows where `none` is a missing value (NaN) that
`dropna` removes. -/
inductive PriceFetch where
  | raise_ (msg : String)
  | hist (rows : List (String × Option ℚ))
deriving DecidableEq

/-- Models `hist["Close"].dropna()` paired with the formatted index:
`closes = [(idx, float(val)) for idx, val in closes_series.items()]`. -/
def closesFrom (rows : List (String × Option ℚ)) : List (String × ℚ) :=
  rows.filterMap (fun p => p.2.map (fun v => (p.1, v)))

/-- Arithmetic mean of a list of rationals (`Series.mean`). -/
def qmean (l : List ℚ) : ℚ := l.sum / l.length

/-- The trailing `n` elements of a list (`Series.tail(n)` / `closes[-n:]`),
the whole list when it is shorter than `n`. -/
def lastN {α : Type} (n : Nat) (l : List α) : List α := l.drop (l.length - n)

/-- The consecutive pairs that survive the log-return filter
`for i in range(1, len(vals)) if vals[i-1] and vals[i]`: both members
non-zero (truthiness of finite floats). -/
def logretPairs : List ℚ → List (ℚ × ℚ)
  | a :: b :: rest => (if a ≠ 0 ∧ b ≠ 0 then [(a, b)] else []) ++ logretPairs (b :: rest)
  | _ => []

/-- Whether the log-return comprehension raises: `math.log(b / a)` raises
`ValueError("math domain error")` exactly when its argument is non-positive,
and on a surviving pair (both members non-zero) that means a negative
ratio — consecutive non-zero closes of opposite sign. -/
def hasDomainError (vals : List ℚ) : Bool :=
  (logretPairs vals).any (fun p => p.2 / p.1 ≤ 0)

/-- Stands in for `pstdev(logrets) * sqrt(252)` on the surviving pairs: the
logarithm and square root are irrational, so the numeric value of
`annualized_vol` is not modelled (no claim constrains it); only its
presence — `logretPairs` being non-empty — is, and that is faithful. -/
def volOf (pairs : List (ℚ × ℚ)) : ℚ := pairs.length

/-- Models `pull_price_trend_yf` as a function of the fetch outcome.  The outer
`try/except` makes it total: a fetch exception returns `{"error": str(e)}`.
An empty table returns `{"error": "No price data returned"}` before any
computation.  A non-empty table whose `Close` column is all-NaN leaves
`closes` empty, so `closes[-1]` raises `IndexError("list index out of
range")`, caught by the same outer handler.  And `math.log` raises
`ValueError("math domain error")` when some surviving consecutive pair has
a non-positive ratio (opposite signs; the ratio cannot be zero because both
members of a surviving pair are non-zero): the comprehension on line 24
raises before the success dict of line 27 is built, so the already-computed
`pct_change`/`sma20`/`sma50` are discarded and the same outer handler
returns `{"error": "math domain error"}`. -/
def pull_price_trend_yf (fetch : PriceFetch) : PriceMetrics :=
  match fetch with
  | .raise_ e => priceError e
  | .hist rows =>
    if rows.isEmpty then priceError "No price data returned"
    else
      let closes := closesFrom rows
      match closes.getLast?, closes.head? with
      | some lastP, some firstP =>
        let latest_close := lastP.2
        let oldest_close := firstP.2
        let pct_change : Option ℚ :=
          if oldest_close ≠ 0 then some (latest_close / oldest_close - 1) else none
        let vals := closes.map Prod.snd
        let sma20 : Option ℚ := if 20 ≤ closes.length then some (qmean (lastN 20 vals)) else none
        let sma50 : Option ℚ := if 50 ≤ closes.length then some (qmean (lastN 50 vals)) else none
        let pairs := logretPairs vals
        if hasDomainError vals then priceError "math domain error"
        else
          { error := none, latest_close := some latest_close, oldest_close := some oldest_close,
            pct_change := pct_change, sma20 := sma20, sma50 := sma50,
            annualized_vol := if pairs.isEmpty then none else some (volOf pairs),
            sample := some (lastN 5 closes) }
      | _, _ => priceError "list index out of range"

/-- The error shape of the price analyzer: an error message and none of the
numeric keys. -/
def isPriceErrorShape (r : PriceMetrics) : Prop :=
  r.error ≠ none ∧ r.latest_close = none ∧ r.oldest_close = none ∧ r.pct_change = none ∧
  r.sma20 = none ∧ r.sma50 = none ∧ r.annualized_vol = none ∧ r.sample = none

/-! ## finnhub_news.py -/

/-- The JSON value found under the `datetime` key of an item: a number (UNIX
epoch seconds) or a non-numeric string. -/
inductive TsVal where
  | num (n : Int)
  | str (s : String)
deriving DecidableEq

/-- One news item: the `datetime` key (absent, numeric, or a string), the
`datetime_iso` key the enrichment loop may add, and all remaining keys as
an uninterpreted association list. -/
structure NewsItem where
  datetime : Option TsVal
  datetime_iso : Option String
  rest : List (String × String)
deriving DecidableEq

/-- The sort and enrichment key `x.get("datetime", 0)`: a missing key
defaults to the integer `0`. -/
def newsKey (it : NewsItem) : TsVal := it.datetime.getD (.num 0)

/-- The key of every item is numeric (a missing `datetime` defaults to `0`,
which is numeric), so Python can compare all the sort keys. -/
def allNumericKeys (l : List NewsItem) : Bool :=
  l.all (fun it => match newsKey it with | .num _ => true | .str _ => false)

/-- The `datetime` of every item is literally present and a string, so Python
compares the sort keys as strings. -/
def allStrKeys (l : List NewsItem) : Bool :=
  l.all (fun it => match it.datetime with | some (.str _) => true | _ => false)

/-- Models the `sorted(..., key=..., reverse=True)` comparator on numeric keys:
descending by epoch second. -/
def newsDesc (a b : NewsItem) : Bool :=
  match newsKey a, newsKey b with
  | .num m, .num n => decide (n ≤ m)
  | _, _ => false

/-- The same comparator when every key is a string (Python compares
strings lexicographically by code point, as Lean `String` order does). -/
def newsDescStr (a b : NewsItem) : Bool :=
  match newsKey a, newsKey b with
  | .str sa, .str sb => decide (sb ≤ sa)
  | _, _ => false

/-- Smallest epoch second `datetime.fromtimestamp(_, tz=utc)` accepts
(0001-01-01 00:00:00 UTC). -/
def ftsMin : Int := -62135596800

/-- Largest whole epoch second `datetime.fromtimestamp(_, tz=utc)` accepts
(9999-12-31 23:59:59 UTC). -/
def ftsMax : Int := 253402300799

/-- Left-pads a two-digit field with `0` (`%m`, `%d`, `%H`, `%M`, `%S`). -/
def pad2 (n : Nat) : String := if n < 10 then "0" ++ toString n else toString n

/-- Left-pads the year to four digits (`%Y`; the rendering of years below
1000 is platform-dependent in CPython, and no claim depends on it). -/
def pad4 (n : Nat) : String :=
  let s := toString n
  String.mk (List.replicate (4 - s.length) '0') ++ s

/-- Civil date from a day count relative to 1970-01-01 (proleptic
Gregorian), the standard era-based conversion `datetime` performs. -/
def civilFromDays (z0 : Int) : Int × Nat × Nat :=
  let z := z0 + 719468
  let era := Int.fdiv z 146097
  let doe := (z - era * 146097).toNat
  let yoe := (doe - doe / 1460 + doe / 36524 - doe / 146096) / 365
  let y : Int := (yoe : Int) + era * 400
  let doy := doe - (365 * yoe + yoe / 4 - yoe / 100)
  let mp := (5 * doy + 2) / 153
  let d := doy - (153 * mp + 2) / 5 + 1
  let m := if mp < 10 then mp + 3 else mp - 9
  (if m ≤ 2 then y + 1 else y, m, d)

/-- Models `datetime.fromtimestamp(n, tz=utc).strftime("%Y-%m-%d %H:%M:%S")` for
an in-range epoch second. -/
def isoOfTimestamp (n : Int) : String :=
  let days := Int.fdiv n 86400
  let secs := (Int.fmod n 86400).toNat
  let c := civilFromDays days
  pad4 c.1.toNat ++ "-" ++ pad2 c.2.1 ++ "-" ++ pad2 c.2.2 ++ " " ++
    pad2 (secs / 3600) ++ ":" ++ pad2 (secs % 3600 / 60) ++ ":" ++ pad2 (secs % 60)

/-- The body of the enrichment loop (lines 35-40): `ts = it.get("datetime",
0)`; `it["datetime_iso"] = fromtimestamp(ts, utc).strftime(...)` under a
bare `except: pass`.  A string `ts` makes `fromtimestamp` raise
`TypeError`; an out-of-range number makes it raise an
`OverflowError`/`ValueError`/`OSError`; either way the assignment is
skipped and the item is left exactly as it was. -/
def enrichItem (it : NewsItem) : NewsItem :=
  match newsKey it with
  | .num n =>
    if ftsMin ≤ n ∧ n ≤ ftsMax then { it with datetime_iso := some (isoOfTimestamp n) } else it
  | .str _ => it

/-- The dict returned by `pull_finnhub_news`: the two-key
`{"count": ..., "sample": ...}` digest or the one-key `{"error": ...}`
shape. -/
structure NewsResult where
  error : Option String
  count : Option Nat
  sample : Option (List NewsItem)
deriving DecidableEq

/-- What the news fetch produced.  `failed` is `fetch_json` returning
`None` (network error, non-2xx, bad JSON); `errorPayload msg` is a
non-empty dict `{"error": msg}` (only the truthy-`error` payload is
modelled as a dict); `items` is the normal JSON list of articles. -/
inductive NewsData where
  | failed
  | errorPayload (msg : String)
  | items (l : List NewsItem)
deriving DecidableEq

/-- The `{"error": "Failed to get news"}` record: what a failed fetch and —
because an empty list is falsy — an empty item list both return. -/
def newsFailShape : NewsResult :=
  { error := some "Failed to get news", count := none, sample := none }

/-- Models `pull_finnhub_news` from the fetch result on (lines 31-41; the missing
API-key early return is upstream of the fetch and not modelled).  The
result is `none` when the source would raise an uncaught exception: a
falsy `error` value in a dict payload falls through to `sorted()` over the
dict, and a list mixing string timestamps with numeric (or defaulted-`0`)
ones makes `sorted()` compare `str` with `int`; both raise `TypeError`
with no handler in scope. -/
def pull_finnhub_news (d : NewsData) : Option NewsResult :=
  match d with
  | .failed => some newsFailShape
  | .errorPayload msg => if msg = "" then none else some { error := some msg, count := none, sample := none }
  | .items l =>
    if l.isEmpty then some newsFailShape
    else if allNumericKeys l then
      some { error := none, count := some l.length,
             sample := some (((sortBy newsDesc l).take 20).map enrichItem) }
    else if allStrKeys l then
      some { error := none, count := some l.length,
             sample := some (((sortBy newsDescStr l).take 20).map enrichItem) }
    else none

/-! ## resolver.py and collect_raw_data.py -/

/-- One entry of the SEC symbol registry `company_tickers.json`: a ticker,
a numeric `cik_str` and an optional `title`. -/
structure RegistryEntry where
  ticker : String
  cik_str : Nat
  title : Option String
deriving DecidableEq

/-- The dict `resolve_ticker_to_cik` returns on success. -/
structure ResolvedTicker where
  ticker : String
  cik : String
  title : String
deriving DecidableEq

/-- Models `str(cik).zfill(10)`: the decimal digits left-padded with zeros to
width 10. -/
def zfill10 (s : String) : String :=
  String.mk (List.replicate (10 - s.length) '0') ++ s

/-- Models `resolve_ticker_to_cik` as a function of the fetched registry
(`none` = the network call or JSON parse raised, caught and logged).  Scans
the entries in order for a case-insensitive ticker match; returns `None`
both on a fetch failure and when no entry matches (the loop falls off the
end of the function). -/
def resolve_ticker_to_cik (registry : Option (List RegistryEntry)) (ticker : String) :
    Option ResolvedTicker :=
  match registry with
  | none => none
  | some entries =>
    (entries.find? (fun e => e.ticker.toUpper == ticker.toUpper)).map fun e =>
      { ticker := ticker.toUpper, cik := zfill10 (toString e.cik_str),
        title := e.title.getD "Unknown" }

/-- The four-key bundle `collect_raw_data` assembles. -/
structure RawBundle where
  meta : ResolvedTicker
  sec : FinancialFacts
  prices : PriceMetrics
  news : NewsResult
deriving DecidableEq

/-- Models `collect_raw_data` with each sub-fetch environment passed explicitly:
the symbol registry the resolver sees, the per-CIK tag extraction feeding
`pull_sec_financials`, and the per-ticker price and news fetch outcomes.
The hub has no exception handling; `cik = resolved["cik"]` subscripts the
resolver result without a `None` check, so a failed resolution raises
`TypeError` out of the hub (modelled as `Except.error`), and an uncaught
exception inside `pull_finnhub_news` propagates the same way. -/
def collect_raw_data (registry : Option (List RegistryEntry))
    (secTags : String → GaapTags)
    (priceFetch : String → PriceFetch)
    (newsFetch : String → NewsData)
    (ticker : String) : Except String RawBundle :=
  match resolve_ticker_to_cik registry ticker with
  | none => Except.error "TypeError: NoneType object is not subscriptable"
  | some resolved =>
    match pull_finnhub_news (newsFetch ticker) with
    | none => Except.error "TypeError: unsupported comparison in sorted"
    | some news =>
      Except.ok { meta := resolved, sec := pull_sec_financials (secTags resolved.cik),
                  prices := pull_price_trend_yf (priceFetch ticker), news := news }

/-! ## JSON persistence (persist_raw_json / load_raw_json)

`json.dump` maps a Python value to a JSON document; the file is the text
rendering of that document and `json.load` parses the text back to the same
document, so the text layer is the identity on documents and the round trip
is decided entirely by the Python-value/JSON-document boundary, which is
modelled here.  Python floats re-read exactly (`repr` round-trip), so
numbers are the identity as well. -/

mutual
/-- A Python value as it appears in a raw bundle: JSON scalars, lists,
tuples (the `(date, close)` pairs `pull_price_trend_yf` builds) and
insertion-ordered dicts. -/
inductive PVal where
  | null
  | bool (b : Bool)
  | num (q : ℚ)
  | str (s : String)
  | list (xs : PList)
  | tuple (xs : PList)
  | dict (kvs : PObj)

/-- A list of Python values. -/
inductive PList where
  | nil
  | cons (hd : PVal) (tl : PList)

/-- The string-keyed entries of a Python dict, in insertion order. -/
inductive PObj where
  | nil
  | cons (key : String) (val : PVal) (tl : PObj)
end

mutual
/-- A JSON document node. -/
inductive JVal where
  | null
  | bool (b : Bool)
  | num (q : ℚ)
  | str (s : String)
  | arr (xs : JList)
  | obj (kvs : JObj)

/-- A JSON array body. -/
inductive JList where
  | nil
  | cons (hd : JVal) (tl : JList)

/-- A JSON object body, in insertion order. -/
inductive JObj where
  | nil
  | cons (key : String) (val : JVal) (tl : JObj)
end

mutual
/-- Models `json.dump`: lists and tuples both serialize as JSON arrays. -/
def toJson : PVal → JVal
  | .null => .null
  | .bool b => .bool b
  | .num q => .num q
  | .str s => .str s
  | .list xs => .arr (toJsonList xs)
  | .tuple xs => .arr (toJsonList xs)
  | .dict kvs => .obj (toJsonObj kvs)

/-- Serializes the elements of a list or tuple. -/
def toJsonList : PList → JList
  | .nil => .nil
  | .cons x xs => .cons (toJson x) (toJsonList xs)

/-- Serializes the entries of a dict. -/
def toJsonObj : PObj → JObj
  | .nil => .nil
  | .cons k v kvs => .cons k (toJson v) (toJsonObj kvs)
end

mutual
/-- Models `json.load`: every JSON array parses as a Python list. -/
def fromJson : JVal → PVal
  | .null => .null
  | .bool b => .bool b
  | .num q => .num q
  | .str s => .str s
  | .arr xs => .list (fromJsonList xs)
  | .obj kvs => .dict (fromJsonObj kvs)

/-- Parses an array body. -/
def fromJsonList : JList → PList
  | .nil => .nil
  | .cons x xs => .cons (fromJson x) (fromJsonList xs)

/-- Parses an object body. -/
def fromJsonObj : JObj → PObj
  | .nil => .nil
  | .cons k v kvs => .cons k (fromJson v) (fromJsonObj kvs)
end

/-- The JSON document `persist_raw_json` writes for a bundle value. -/
def persist_raw_json (v : PVal) : JVal := toJson v

/-- The Python value `load_raw_json` reads back from that document. -/
def load_raw_json (j : JVal) : PVal := fromJson j

mutual
/-- Replaces every tuple by the list of its (recursively replaced)
elements. -/
def stripTuples : PVal → PVal
  | .null => .null
  | .bool b => .bool b
  | .num q => .num q
  | .str s => .str s
  | .list xs => .list (stripTuplesList xs)
  | .tuple xs => .list (stripTuplesList xs)
  | .dict kvs => .dict (stripTuplesObj kvs)

/-- Maps `stripTuples` over list or tuple elements. -/
def stripTuplesList : PList → PList
  | .nil => .nil
  | .cons x xs => .cons (stripTuples x) (stripTuplesList xs)

/-- Maps `stripTuples` over dict entries. -/
def stripTuplesObj : PObj → PObj
  | .nil => .nil
  | .cons k v kvs => .cons k (stripTuples v) (stripTuplesObj kvs)
end

mutual
/-- No tuple occurs anywhere in the value. -/
def tupleFree : PVal → Bool
  | .null => true
  | .bool _ => true
  | .num _ => true
  | .str _ => true
  | .list xs => tupleFreeList xs
  | .tuple _ => false
  | .dict kvs => tupleFreeObj kvs

/-- Checks `tupleFree` over list elements. -/
def tupleFreeList : PList → Bool
  | .nil => true
  | .cons x xs => tupleFree x && tupleFreeList xs

/-- Checks `tupleFree` over dict entries. -/
def tupleFreeObj : PObj → Bool
  | .nil => true
  | .cons _ v kvs => tupleFree v && tupleFreeObj kvs
end

/-- A `PList` from a Lean list of values. -/
def PList.ofList : List PVal → PList
  | [] => .nil
  | x :: xs => .cons x (PList.ofList xs)

/-- An optional number as the Python value stored under a dict key. -/
def optQ : Option ℚ → PVal
  | none => .null
  | some q => .num q

/-- An optional string as the Python value stored under a dict key. -/
def optStr : Option String → PVal
  | none => .null
  | some s => .str s

/-- The Python value of the resolver dict. -/
def resolvedToPVal (m : ResolvedTicker) : PVal :=
  .dict (.cons "ticker" (.str m.ticker) (.cons "cik" (.str m.cik)
    (.cons "title" (.str m.title) .nil)))

/-- The Python value of the `pull_sec_financials` dict, keys in source
order. -/
def secToPVal (f : FinancialFacts) : PVal :=
  .dict (.cons "revenue" (optQ f.revenue) (.cons "gross_profit" (optQ f.gross_profit)
    (.cons "operating_income" (optQ f.operating_income) (.cons "net_income" (optQ f.net_income)
    (.cons "cash" (optQ f.cash) (.cons "current_assets" (optQ f.current_assets)
    (.cons "current_liabilities" (optQ f.current_liabilities) (.cons "equity" (optQ f.equity)
    (.cons "total_debt" (optQ f.total_debt) (.cons "gross_margin" (optQ f.gross_margin)
    (.cons "operating_margin" (optQ f.operating_margin) (.cons "current_ratio" (optQ f.current_ratio)
    (.cons "debt_to_equity" (optQ f.debt_to_equity) .nil)))))))))))))

/-- The Python value of the price dict.  In the success shape the `sample`
key holds a list of `(date, close)` TUPLES (line 15 of `price_trend.py`
builds tuples, and `closes[-5:]` keeps them tuples). -/
def priceToPVal (r : PriceMetrics) : PVal :=
  match r.error with
  | some e => .dict (.cons "error" (.str e) .nil)
  | none =>
    .dict (.cons "latest_close" (optQ r.latest_close) (.cons "oldest_close" (optQ r.oldest_close)
      (.cons "pct_change" (optQ r.pct_change) (.cons "sma20" (optQ r.sma20)
      (.cons "sma50" (optQ r.sma50) (.cons "annualized_vol" (optQ r.annualized_vol)
      (.cons "sample"
        (match r.sample with
         | none => .null
         | some l => .list (PList.ofList (l.map fun p => .tuple (.cons (.str p.1) (.cons (.num p.2) .nil)))))
        .nil)))))))

/-- The Python value of one news item (the `datetime` and `datetime_iso`
keys and the remaining string fields; the relative key order inside an item
does not matter to any claim). -/
def newsItemToPVal (it : NewsItem) : PVal :=
  .dict (.cons "datetime"
    (match it.datetime with
     | none => .null
     | some (.num n) => .num (n : ℚ)
     | some (.str s) => .str s)
    (((it.rest.map fun kv => (kv.1, PVal.str kv.2)) ++
      (match it.datetime_iso with
       | none => []
       | some s => [("datetime_iso", PVal.str s)])).foldr (fun kv o => .cons kv.1 kv.2 o) .nil))

/-- The Python value of the news dict. -/
def newsToPVal (r : NewsResult) : PVal :=
  match r.error with
  | some e => .dict (.cons "error" (.str e) .nil)
  | none =>
    .dict (.cons "count" (match r.count with | none => .null | some n => .num (n : ℚ))
      (.cons "sample"
        (match r.sample with
         | none => .null
         | some l => .list (PList.ofList (l.map newsItemToPVal))) .nil))

/-- The Python value `collect_raw_data` returns and `persist_raw_json`
serializes: the four-key dict. -/
def bundleToPVal (b : RawBundle) : PVal :=
  .dict (.cons "meta" (resolvedToPVal b.meta) (.cons "sec" (secToPVal b.sec)
    (.cons "prices" (priceToPVal b.prices) (.cons "news" (newsToPVal b.news) .nil))))

/-! ## Sorting lemmas for the stable insertion sort -/

theorem mem_insertBy {α : Type} (r : α → α → Bool) (x : α) (l : List α) (a : α) :
    a ∈ insertBy r x l ↔ a = x ∨ a ∈ l := by
  induction l with
  | nil => simp [insertBy]
  | cons y ys ih =>
    by_cases h : r x y
    · simp [insertBy, h]
    · simp [insertBy, h, ih]
      tauto

theorem insertBy_perm {α : Type} (r : α → α → Bool) (x : α) (l : List α) :
    (insertBy r x l).Perm (x :: l) := by
  induction l with
  | nil => simp [insertBy]
  | cons y ys ih =>
    by_cases h : r x y
    · simp [insertBy, h]
    · simp only [insertBy, h, if_false]
      exact ((ih.cons y).trans (List.Perm.swap x y ys))

theorem sortBy_perm {α : Type} (r : α → α → Bool) (l : List α) :
    (sortBy r l).Perm l := by
  induction l with
  | nil => simp [sortBy]
  | cons x xs ih => exact (insertBy_perm r x (sortBy r xs)).trans (ih.cons x)

theorem pairwise_insertBy {α : Type} {r : α → α → Bool} {x : α} {l : List α}
    (total_x : ∀ y ∈ l, r x y = true ∨ r y x = true)
    (trans_x : ∀ y ∈ l, ∀ z ∈ l, r x y = true → r y z = true → r x z = true)
    (hl : l.Pairwise (fun a b => r a b = true)) :
    (insertBy r x l).Pairwise (fun a b => r a b = true) := by
  induction l with
  | nil => simp [insertBy]
  | cons y ys ih =>
    rcases List.pairwise_cons.mp hl with ⟨hy, hys⟩
    by_cases h : r x y
    · simp only [insertBy, h, if_true]
      refine List.pairwise_cons.mpr ⟨?_, hl⟩
      intro z hz
      rcases List.mem_cons.mp hz with rfl | hz
      · exact h
      · exact trans_x y (by simp) z (by simp [hz]) h (hy z hz)
    · simp only [insertBy, h, if_false]
      refine List.pairwise_cons.mpr ⟨?_, ?_⟩
      · intro z hz
        rcases (mem_insertBy r x ys z).mp hz with hz | hz
        · subst hz
          rcases total_x y (by simp) with h1 | h1
          · exact absurd h1 h
          · exact h1
        · exact hy z hz
      · exact ih (fun a ha => total_x a (by simp [ha]))
          (fun a ha b hb => trans_x a (by simp [ha]) b (by simp [hb])) hys

theorem pairwise_sortBy {α : Type} {r : α → α → Bool} {l : List α}
    (total : ∀ a ∈ l, ∀ b ∈ l, r a b = true ∨ r b a = true)
    (trans : ∀ a ∈ l, ∀ b ∈ l, ∀ c ∈ l, r a b = true → r b c = true → r a c = true) :
    (sortBy r l).Pairwise (fun a b => r a b = true) := by
  induction l with
  | nil => simp [sortBy]
  | cons x xs ih =>
    have hmem : ∀ a, a ∈ sortBy r xs → a ∈ xs := fun a ha => (sortBy_perm r xs).mem_iff.mp ha
    refine pairwise_insertBy ?_ ?_ ?_
    · intro y hy
      exact total x (by simp) y (by simp [hmem y hy])
    · intro y hy z hz
      exact trans x (by simp) y (by simp [hmem y hy]) z (by simp [hmem z hz])
    · exact ih (fun a ha b hb => total a (by simp [ha]) b (by simp [hb]))
        (fun a ha b hb c hc => trans a (by simp [ha]) b (by simp [hb]) c (by simp [hc]))

theorem sortBy_ne_nil {α : Type} (r : α → α → Bool) {l : List α} (h : l ≠ []) :
    sortBy r l ≠ [] := by
  intro hs
  exact h (List.Perm.eq_nil ((sortBy_perm r l).symm.trans (by rw [hs])))

theorem sortBy_head_greatest {α : Type} {r : α → α → Bool} {l : List α} {m : α} {rest : List α}
    (total : ∀ a ∈ l, ∀ b ∈ l, r a b = true ∨ r b a = true)
    (trans : ∀ a ∈ l, ∀ b ∈ l, ∀ c ∈ l, r a b = true → r b c = true → r a c = true)
    (refl : ∀ a ∈ l, r a a = true)
    (h : sortBy r l = m :: rest) :
    m ∈ l ∧ ∀ v ∈ l, r m v = true := by
  have hperm := sortBy_perm r l
  rw [h] at hperm
  have hm : m ∈ l := hperm.mem_iff.mp (by simp)
  refine ⟨hm, ?_⟩
  intro v hv
  have hv2 : v ∈ m :: rest := hperm.mem_iff.mpr hv
  rcases List.mem_cons.mp hv2 with rfl | hv2
  · exact refl _ hv
  · have hp := pairwise_sortBy total trans
    rw [h] at hp
    exact (List.pairwise_cons.mp hp).1 v hv2

theorem keyLE_refl (a : Nat × Int) : keyLE a a = true := by
  simp [keyLE]

theorem keyLE_total (a b : Nat × Int) : keyLE a b = true ∨ keyLE b a = true := by
  simp only [keyLE, Bool.or_eq_true, Bool.and_eq_true, decide_eq_true_eq]
  omega

theorem keyLE_trans (a b c : Nat × Int) (h1 : keyLE a b = true) (h2 : keyLE b c = true) :
    keyLE a c = true := by
  simp only [keyLE, Bool.or_eq_true, Bool.and_eq_true, decide_eq_true_eq] at h1 h2 ⊢
  omega

theorem descKey_refl (v : FactEntry) : descKey v v = true := keyLE_refl _

theorem descKey_total (u v : FactEntry) : descKey u v = true ∨ descKey v u = true :=
  keyLE_total (entryKey v) (entryKey u)

theorem descKey_trans (u v w : FactEntry) (h1 : descKey u v = true) (h2 : descKey v w = true) :
    descKey u w = true := keyLE_trans _ _ _ h2 h1

theorem annualsOf_ne_nil {values : List FactEntry} (h : values ≠ []) : annualsOf values ≠ [] := by
  unfold annualsOf
  simp only
  split
  · exact h
  · next he => simpa using he

/-- C4: for every non-empty candidate list, `latest_annual_value` first
restricts to annual entries (fiscal period `FY` or form `10-K`/`20-F`,
falling back to the whole list when none qualify) and returns an entry of
that restricted list whose `(parsed end-date, fiscal year)` key — with
unparseable dates as `datetime.min` — is maximal under the lexicographic
descending order; in particular, for two annual entries with end dates
2023-12-31 and 2024-12-31 it returns the 2024 entry in either input
order. -/
theorem latest_annual_selects_maximum :
    (∀ values : List FactEntry, values ≠ [] →
      ∃ m, latest_annual_value values = some m ∧ m ∈ annualsOf values ∧
        ∀ v ∈ annualsOf values, keyLE (entryKey v) (entryKey m) = true) ∧
    (∀ u w : FactEntry, isAnnual u = true → isAnnual w = true →
      u.endD = some "2023-12-31" → w.endD = some "2024-12-31" →
      latest_annual_value [u, w] = some w ∧ latest_annual_value [w, u] = some w) := by
  constructor
  · intro values hne
    have hann := annualsOf_ne_nil hne
    have hs := sortBy_ne_nil descKey hann
    rcases List.exists_cons_of_ne_nil hs with ⟨m, rest, hcons⟩
    have hmax := sortBy_head_greatest (r := descKey)
      (fun a _ b _ => descKey_total a b)
      (fun a _ b _ c _ h1 h2 => descKey_trans a b c h1 h2)
      (fun a _ => descKey_refl a) hcons
    refine ⟨m, ?_, hmax.1, hmax.2⟩
    simp [latest_annual_value, hcons]
  · intro u w hu hw hue hwe
    have hpu : parseIsoDate "2023-12-31" = some (2023, 12, 31) := by decide
    have hpw : parseIsoDate "2024-12-31" = some (2024, 12, 31) := by decide
    have hku : dateKey u = 20231231 := by simp [dateKey, hue, hpu]
    have hkw : dateKey w = 20241231 := by simp [dateKey, hwe, hpw]
    have hduw : descKey u w = false := by
      simp [descKey, keyLE, entryKey, hku, hkw]
    have hdwu : descKey w u = true := by
      simp [descKey, keyLE, entryKey, hku, hkw]
    constructor
    · simp [latest_annual_value, annualsOf, List.filter, hu, hw, sortBy, insertBy, hduw]
    · simp [latest_annual_value, annualsOf, List.filter, hu, hw, sortBy, insertBy, hdwu]

/-- Concrete annual entry ending 2023-12-31. -/
def entry2023 : FactEntry :=
  { fp := some "FY", form := none, endD := some "2023-12-31", fy := some 2023, val := 1 }

/-- Concrete annual entry ending 2024-12-31. -/
def entry2024 : FactEntry :=
  { fp := some "FY", form := none, endD := some "2024-12-31", fy := some 2024, val := 2 }

/-- Witness for C4 at the concrete 2023/2024 pair, in both input orders. -/
theorem latest_annual_selects_maximum_witness :
    latest_annual_value [entry2023, entry2024] = some entry2024 ∧
    latest_annual_value [entry2024, entry2023] = some entry2024 :=
  latest_annual_selects_maximum.2 entry2023 entry2024 (by decide) (by decide) rfl rfl

theorem ratioDenTruthy_ne_none (num den : Option ℚ) :
    ratioDenTruthy num den ≠ none ↔ den ≠ none ∧ den ≠ some 0 ∧ num ≠ none := by
  rcases den with _ | r <;> rcases num with _ | x <;> simp [ratioDenTruthy]

theorem ratioBothTruthy_ne_none (a l : Option ℚ) :
    ratioBothTruthy a l ≠ none ↔ a ≠ none ∧ a ≠ some 0 ∧ l ≠ none ∧ l ≠ some 0 := by
  rcases a with _ | x <;> rcases l with _ | y <;> simp [ratioBothTruthy]

theorem ratioNumPlain_ne_none (td : ℚ) (den : Option ℚ) :
    ratioNumPlain td den ≠ none ↔ den ≠ none ∧ den ≠ some 0 := by
  rcases den with _ | e <;> simp [ratioNumPlain]

/-- C2 (amended): presence of the four derived ratios.  `gross_margin` and
`operating_margin` are present iff the (reported) revenue is present and
non-zero and the numerator is present, exactly as the claim states; but
`current_ratio` additionally requires its numerator `current_assets` to be
NON-ZERO (Python truthiness guards both operands), and `debt_to_equity` is
present iff `equity` is present and non-zero, with no requirement at all on
the reported `total_debt` (the division uses the raw component sum, which
is `0`, not absent, when no component is present). -/
theorem ratio_field_presence (t : GaapTags) :
    ((pull_sec_financials t).gross_margin ≠ none ↔
      (pull_sec_financials t).revenue ≠ none ∧ (pull_sec_financials t).revenue ≠ some 0 ∧
      (pull_sec_financials t).gross_profit ≠ none) ∧
    ((pull_sec_financials t).operating_margin ≠ none ↔
      (pull_sec_financials t).revenue ≠ none ∧ (pull_sec_financials t).revenue ≠ some 0 ∧
      (pull_sec_financials t).operating_income ≠ none) ∧
    ((pull_sec_financials t).current_ratio ≠ none ↔
      (pull_sec_financials t).current_assets ≠ none ∧
      (pull_sec_financials t).current_assets ≠ some 0 ∧
      (pull_sec_financials t).current_liabilities ≠ none ∧
      (pull_sec_financials t).current_liabilities ≠ some 0) ∧
    ((pull_sec_financials t).debt_to_equity ≠ none ↔
      (pull_sec_financials t).equity ≠ none ∧ (pull_sec_financials t).equity ≠ some 0) := by
  simp only [pull_sec_financials]
  exact ⟨ratioDenTruthy_ne_none _ _, ratioDenTruthy_ne_none _ _,
    ratioBothTruthy_ne_none _ _, ratioNumPlain_ne_none _ _⟩

/-- All nineteen tag extractions absent. -/
def noTags : GaapTags :=
  ⟨none, none, none, none, none, none, none, none, none, none,
   none, none, none, none, none, none, none, none, none⟩

/-- Tag results with current assets present but zero, current liabilities
present and non-zero, equity present and non-zero, no debt components. -/
def exC2 : GaapTags :=
  { noTags with assetsCurrent := some 0, liabilitiesCurrent := some 5,
                stockholdersEquity := some 4 }

/-- Counterexample to C2 as stated: at `exC2`, `current_ratio` is absent
although its numerator is present and its denominator is present and
non-zero (the claimed biconditional fails), and `debt_to_equity` is present
although its numerator `total_debt` is reported absent. -/
theorem ratio_field_presence_cex :
    (pull_sec_financials exC2).current_assets = some 0 ∧
    (pull_sec_financials exC2).current_liabilities = some 5 ∧
    (pull_sec_financials exC2).current_ratio = none ∧
    (pull_sec_financials exC2).total_debt = none ∧
    (pull_sec_financials exC2).debt_to_equity = some 0 ∧
    ¬ ((pull_sec_financials exC2).current_ratio ≠ none ↔
       (pull_sec_financials exC2).current_assets ≠ none ∧
       (pull_sec_financials exC2).current_liabilities ≠ none ∧
       (pull_sec_financials exC2).current_liabilities ≠ some 0) := by
  simp [pull_sec_financials, exC2, noTags, pyOr, pytruthy, ratioDenTruthy,
    ratioBothTruthy, ratioNumPlain, debtSum, debtComponents]

/-- C3 (amended): the reported `total_debt` equals the sum of the present
debt components whenever that sum is non-zero, and is absent exactly when
the sum is zero — in particular when all four components are absent, but
also when present components sum to zero. -/
theorem total_debt_reporting (t : GaapTags) :
    ((pull_sec_financials t).total_debt =
      if debtSum t = 0 then none else some (debtSum t)) ∧
    ((debtComponents t).filterMap id = [] → (pull_sec_financials t).total_debt = none) := by
  constructor
  · simp only [pull_sec_financials]
    by_cases h : debtSum t = 0 <;> simp [h]
  · intro h
    have hz : debtSum t = 0 := by simp [debtSum, h]
    simp only [pull_sec_financials]
    simp [hz]

/-- Witness for the amended C3 theorem: with every component absent the
reported `total_debt` is `None`. -/
theorem total_debt_reporting_witness : (pull_sec_financials noTags).total_debt = none :=
  (total_debt_reporting noTags).2 (by rfl)

/-- Tag results whose only debt component is a present-but-zero current
portion of long-term debt. -/
def exC3 : GaapTags := { noTags with longTermDebtCurrent := some 0 }

/-- Counterexample to C3 as stated: at `exC3` one debt component is present
(value `0`), so the claimed `total_debt` is the sum `0`; the code reports
`None` instead. -/
theorem total_debt_reporting_cex :
    (debtComponents exC3).filterMap id = [0] ∧
    (pull_sec_financials exC3).total_debt = none ∧
    (pull_sec_financials exC3).total_debt ≠ some (((debtComponents exC3).filterMap id).sum) := by
  simp [pull_sec_financials, exC3, noTags, pyOr, pytruthy, debtSum, debtComponents]

/-- C5: a fetch exception and an empty close series (an empty table, or a
non-empty table whose Close column drops to nothing) both return the
error-shaped result — an error message and none of the numeric fields —
and, the function being total, never an exception. -/
theorem price_empty_error_shape :
    (∀ e, isPriceErrorShape (pull_price_trend_yf (.raise_ e))) ∧
    (∀ rows, closesFrom rows = [] →
      isPriceErrorShape (pull_price_trend_yf (.hist rows))) := by
  constructor
  · intro e
    simp [pull_price_trend_yf, priceError, isPriceErrorShape]
  · intro rows h
    by_cases hr : rows.isEmpty = true
    · simp [pull_price_trend_yf, hr, priceError, isPriceErrorShape]
    · simp [pull_price_trend_yf, hr, h, priceError, isPriceErrorShape]

/-- Witness for C5: a one-row table whose only Close value is missing. -/
theorem price_empty_error_shape_witness :
    isPriceErrorShape (pull_price_trend_yf (.hist [("2024-01-02", none)])) :=
  price_empty_error_shape.2 [("2024-01-02", none)] (by rfl)

theorem price_neg_ratio_error (rows : List (String × Option ℚ)) (first : String × ℚ)
    (restc : List (String × ℚ)) (h : closesFrom rows = first :: restc)
    (hneg : hasDomainError ((closesFrom rows).map Prod.snd) = true) :
    pull_price_trend_yf (.hist rows) = priceError "math domain error" := by
  have hne : rows.isEmpty = false := by
    rcases rows with _ | ⟨p, ps⟩
    · simp [closesFrom] at h
    · rfl
  have hlast := List.getLast?_eq_getLast (first :: restc) (by simp)
  rw [h] at hneg
  simp only [List.map_cons] at hneg
  simp [pull_price_trend_yf, hne, h, hlast, hneg]

/-- C6 (amended): on a non-empty close series none of whose surviving
consecutive pairs (both closes non-zero) has a non-positive ratio — so the
log-return comprehension raises no `math domain error` — `sma20` is present
iff the series has at least 20 (non-missing) observations and then equals
the mean of the trailing 20, the same for `sma50` at 50, and `pct_change`
is absent exactly when the oldest close is zero.  On a series that does
contain such a pair (consecutive non-zero closes of opposite sign) the
analyzer instead returns `{"error": "math domain error"}`, every numeric
field absent, regardless of the observation count. -/
theorem price_sma_presence (rows : List (String × Option ℚ)) (first : String × ℚ)
    (restc : List (String × ℚ)) (h : closesFrom rows = first :: restc) :
    (hasDomainError ((closesFrom rows).map Prod.snd) = false →
      ((pull_price_trend_yf (.hist rows)).sma20 ≠ none ↔ 20 ≤ (closesFrom rows).length) ∧
      (20 ≤ (closesFrom rows).length →
        (pull_price_trend_yf (.hist rows)).sma20 =
          some (qmean (lastN 20 ((closesFrom rows).map Prod.snd)))) ∧
      ((pull_price_trend_yf (.hist rows)).sma50 ≠ none ↔ 50 ≤ (closesFrom rows).length) ∧
      (50 ≤ (closesFrom rows).length →
        (pull_price_trend_yf (.hist rows)).sma50 =
          some (qmean (lastN 50 ((closesFrom rows).map Prod.snd)))) ∧
      ((pull_price_trend_yf (.hist rows)).pct_change = none ↔ first.2 = 0)) ∧
    (hasDomainError ((closesFrom rows).map Prod.snd) = true →
      pull_price_trend_yf (.hist rows) = priceError "math domain error") := by
  constructor
  · intro hpos
    have hne : rows.isEmpty = false := by
      rcases rows with _ | ⟨p, ps⟩
      · simp [closesFrom] at h
      · rfl
    have hlast := List.getLast?_eq_getLast (first :: restc) (by simp)
    rw [h] at hpos
    simp only [List.map_cons] at hpos
    by_cases h20 : 20 ≤ (first :: restc).length <;>
    by_cases h50 : 50 ≤ (first :: restc).length <;>
    by_cases hz : first.2 = 0 <;>
      simp_all [pull_price_trend_yf, hne, h, hlast]
  · intro hneg
    exact price_neg_ratio_error rows first restc h hneg

/-- A concrete two-row table for the C6 witness (positive closes, no
domain error). -/
def exRows : List (String × Option ℚ) := [("2024-01-02", some 2), ("2024-01-03", some 3)]

/-- A concrete twenty-row table whose second close is negative: twenty
non-missing observations, and the first surviving consecutive pair has a
negative ratio. -/
def exRowsNeg : List (String × Option ℚ) :=
  [("d01", some 1), ("d02", some (-1)), ("d03", some 1), ("d04", some 1), ("d05", some 1),
   ("d06", some 1), ("d07", some 1), ("d08", some 1), ("d09", some 1), ("d10", some 1),
   ("d11", some 1), ("d12", some 1), ("d13", some 1), ("d14", some 1), ("d15", some 1),
   ("d16", some 1), ("d17", some 1), ("d18", some 1), ("d19", some 1), ("d20", some 1)]

/-- Counterexample to C6 as stated: `exRowsNeg` has 20 non-missing
observations and a non-zero oldest close, yet the analyzer returns the
`math domain error` shape — `sma20` absent despite 20 observations and
`pct_change` absent despite a non-zero oldest close, refuting both claimed
biconditionals. -/
theorem price_sma_presence_cex :
    20 ≤ (closesFrom exRowsNeg).length ∧
    (closesFrom exRowsNeg).head? = some ("d01", 1) ∧
    (1 : ℚ) ≠ 0 ∧
    pull_price_trend_yf (.hist exRowsNeg) = priceError "math domain error" ∧
    (pull_price_trend_yf (.hist exRowsNeg)).sma20 = none ∧
    (pull_price_trend_yf (.hist exRowsNeg)).pct_change = none := by
  have herr : pull_price_trend_yf (.hist exRowsNeg) = priceError "math domain error" := by
    apply price_neg_ratio_error exRowsNeg ("d01", 1)
      [("d02", -1), ("d03", 1), ("d04", 1), ("d05", 1), ("d06", 1), ("d07", 1), ("d08", 1),
       ("d09", 1), ("d10", 1), ("d11", 1), ("d12", 1), ("d13", 1), ("d14", 1), ("d15", 1),
       ("d16", 1), ("d17", 1), ("d18", 1), ("d19", 1), ("d20", 1)] (by rfl)
    norm_num [exRowsNeg, closesFrom, hasDomainError, logretPairs, List.any_append, List.any_cons]
  refine ⟨by decide, by decide, by norm_num, herr, by rw [herr]; rfl, by rw [herr]; rfl⟩

/-- Witness for the amended C6: the two positive observations of `exRows`
discharge the no-domain-error hypothesis (both SMAs absent at length 2,
`pct_change` present); `exRowsNeg` discharges the domain-error one. -/
theorem price_sma_presence_witness :
    (((pull_price_trend_yf (.hist exRows)).sma20 ≠ none ↔ 20 ≤ (closesFrom exRows).length) ∧
     (20 ≤ (closesFrom exRows).length →
       (pull_price_trend_yf (.hist exRows)).sma20 =
         some (qmean (lastN 20 ((closesFrom exRows).map Prod.snd)))) ∧
     ((pull_price_trend_yf (.hist exRows)).sma50 ≠ none ↔ 50 ≤ (closesFrom exRows).length) ∧
     (50 ≤ (closesFrom exRows).length →
       (pull_price_trend_yf (.hist exRows)).sma50 =
         some (qmean (lastN 50 ((closesFrom exRows).map Prod.snd)))) ∧
     ((pull_price_trend_yf (.hist exRows)).pct_change = none ↔
       ("2024-01-02", (2 : ℚ)).2 = 0)) ∧
    pull_price_trend_yf (.hist exRowsNeg) = priceError "math domain error" :=
  ⟨(price_sma_presence exRows ("2024-01-02", 2) [("2024-01-03", 3)] (by rfl)).1
     (by norm_num [exRows, closesFrom, hasDomainError, logretPairs, List.any_cons]),
   (price_sma_presence exRowsNeg ("d01", 1)
      [("d02", -1), ("d03", 1), ("d04", 1), ("d05", 1), ("d06", 1), ("d07", 1), ("d08", 1),
       ("d09", 1), ("d10", 1), ("d11", 1), ("d12", 1), ("d13", 1), ("d14", 1), ("d15", 1),
       ("d16", 1), ("d17", 1), ("d18", 1), ("d19", 1), ("d20", 1)] (by rfl)).2
     (by norm_num [exRowsNeg, closesFrom, hasDomainError, logretPairs, List.any_append,
        List.any_cons])⟩

theorem numKey_of_all {l : List NewsItem} (h : allNumericKeys l = true) {a : NewsItem}
    (ha : a ∈ l) : ∃ n, newsKey a = TsVal.num n := by
  have hb := (List.all_eq_true.mp h) a ha
  rcases hk : newsKey a with n | s
  · exact ⟨n, rfl⟩
  · rw [hk] at hb
    simp at hb

/-- C7: on a non-empty all-numeric-timestamp item list the sampler returns
a digest whose `count` is the full pre-truncation length and whose `sample`
is the items sorted by timestamp descending (a permutation of the input,
pairwise in descending key order) truncated to at most 20, each passed
through the timestamp enrichment. -/
theorem news_digest_sorted_truncated (l : List NewsItem)
    (hne : l ≠ []) (hnum : allNumericKeys l = true) :
    ∃ r, pull_finnhub_news (.items l) = some r ∧
      r.error = none ∧
      r.count = some l.length ∧
      r.sample = some (((sortBy newsDesc l).take 20).map enrichItem) ∧
      (sortBy newsDesc l).Perm l ∧
      ((sortBy newsDesc l).take 20).length = min 20 l.length ∧
      ((sortBy newsDesc l).take 20).Pairwise (fun a b => newsDesc a b = true) := by
  have hie : l.isEmpty = false := by
    rcases l with _ | ⟨x, xs⟩
    · exact absurd rfl hne
    · rfl
  have htotal : ∀ a ∈ l, ∀ b ∈ l, newsDesc a b = true ∨ newsDesc b a = true := by
    intro a ha b hb
    obtain ⟨m, hm⟩ := numKey_of_all hnum ha
    obtain ⟨n, hn⟩ := numKey_of_all hnum hb
    simp only [newsDesc, hm, hn, decide_eq_true_eq]
    omega
  have htrans : ∀ a ∈ l, ∀ b ∈ l, ∀ c ∈ l,
      newsDesc a b = true → newsDesc b c = true → newsDesc a c = true := by
    intro a ha b hb c hc h1 h2
    obtain ⟨m, hm⟩ := numKey_of_all hnum ha
    obtain ⟨n, hn⟩ := numKey_of_all hnum hb
    obtain ⟨k, hk⟩ := numKey_of_all hnum hc
    simp only [newsDesc, hm, hn, hk, decide_eq_true_eq] at h1 h2 ⊢
    omega
  refine ⟨{ error := none, count := some l.length,
            sample := some (((sortBy newsDesc l).take 20).map enrichItem) },
          ?_, rfl, rfl, rfl, sortBy_perm _ _, ?_, ?_⟩
  · simp [pull_finnhub_news, hie, hnum]
  · rw [List.length_take, (sortBy_perm newsDesc l).length_eq]
  · exact (pairwise_sortBy htotal htrans).sublist (List.take_sublist 20 _)

/-- Twenty-five items with distinct numeric timestamps `0, …, 24`. -/
def ex25 : List NewsItem :=
  (List.range 25).map fun i => { datetime := some (.num i), datetime_iso := none, rest := [] }

/-- Witness for C7 at `ex25`: count is the pre-truncation 25, the sample
the 20 most recent in descending order. -/
theorem news_digest_sorted_truncated_witness :
    (∃ r, pull_finnhub_news (.items ex25) = some r ∧
      r.error = none ∧
      r.count = some ex25.length ∧
      r.sample = some (((sortBy newsDesc ex25).take 20).map enrichItem) ∧
      (sortBy newsDesc ex25).Perm ex25 ∧
      ((sortBy newsDesc ex25).take 20).length = min 20 ex25.length ∧
      ((sortBy newsDesc ex25).take 20).Pairwise (fun a b => newsDesc a b = true)) ∧
    ex25.length = 25 :=
  ⟨news_digest_sorted_truncated ex25 (by decide) (by decide), by decide⟩

theorem allStr_not_allNumeric {l : List NewsItem} (hne : l ≠ []) (hstr : allStrKeys l = true) :
    allNumericKeys l = false := by
  rcases l with _ | ⟨x, xs⟩
  · exact absurd rfl hne
  · have hx := (List.all_eq_true.mp hstr) x (by simp)
    rcases hd : x.datetime with _ | tv
    · rw [hd] at hx
      simp at hx
    · rcases tv with n | s
      · rw [hd] at hx
        simp at hx
      · apply List.all_eq_false.mpr
        exact ⟨x, by simp, by simp [newsKey, hd]⟩

theorem enrich_of_strKey {it : NewsItem} {s : String} (h : it.datetime = some (.str s)) :
    enrichItem it = it := by
  simp [enrichItem, newsKey, h]

/-- C8: timestamp enrichment is per-item, best-effort and never drops.  An
item whose timestamp is a non-numeric string (`fromtimestamp` raises
`TypeError`) or a number outside the representable range is left exactly as
it was — kept, with no ISO field added and every other field unchanged; an
item with a parseable numeric timestamp is changed only by setting the
`datetime_iso` field.  The sample of the digest is exactly `enrichItem` mapped
over the retained items; in the all-string-timestamp case (the only one in
which the Python sort itself tolerates non-numeric timestamps) the retained
items appear in the sample entirely unchanged. -/
theorem news_enrichment_best_effort :
    (∀ it : NewsItem, ∀ s, it.datetime = some (.str s) → enrichItem it = it) ∧
    (∀ it : NewsItem, ∀ n : Int, it.datetime = some (.num n) →
      ¬ (ftsMin ≤ n ∧ n ≤ ftsMax) → enrichItem it = it) ∧
    (∀ it : NewsItem, ∀ n : Int, it.datetime = some (.num n) →
      ftsMin ≤ n → n ≤ ftsMax →
      enrichItem it = { it with datetime_iso := some (isoOfTimestamp n) }) ∧
    (∀ l : List NewsItem, l ≠ [] → allNumericKeys l = true →
      ∃ r, pull_finnhub_news (.items l) = some r ∧
        r.sample = some (((sortBy newsDesc l).take 20).map enrichItem)) ∧
    (∀ l : List NewsItem, l ≠ [] → allStrKeys l = true →
      ∃ r, pull_finnhub_news (.items l) = some r ∧
        r.sample = some ((sortBy newsDescStr l).take 20)) := by
  refine ⟨?_, ?_, ?_, ?_, ?_⟩
  · intro it s h
    exact enrich_of_strKey h
  · intro it n h hrange
    simp [enrichItem, newsKey, h, hrange]
  · intro it n h h1 h2
    simp [enrichItem, newsKey, h, h1, h2]
  · intro l hne hnum
    have hie : l.isEmpty = false := by
      rcases l with _ | ⟨x, xs⟩
      · exact absurd rfl hne
      · rfl
    exact ⟨{ error := none, count := some l.length,
             sample := some (((sortBy newsDesc l).take 20).map enrichItem) },
           by simp [pull_finnhub_news, hie, hnum], rfl⟩
  · intro l hne hstr
    have hie : l.isEmpty = false := by
      rcases l with _ | ⟨x, xs⟩
      · exact absurd rfl hne
      · rfl
    have hnum := allStr_not_allNumeric hne hstr
    have hmap : ((sortBy newsDescStr l).take 20).map enrichItem =
        (sortBy newsDescStr l).take 20 := by
      conv_rhs => rw [← List.map_id ((sortBy newsDescStr l).take 20)]
      apply List.map_congr_left
      intro it hit
      have hmem : it ∈ l :=
        (sortBy_perm newsDescStr l).mem_iff.mp ((List.take_sublist 20 _).mem hit)
      have hx := (List.all_eq_true.mp hstr) it hmem
      rcases hd : it.datetime with _ | tv
      · rw [hd] at hx
        simp at hx
      · rcases tv with n | s
        · rw [hd] at hx
          simp at hx
        · simpa using enrich_of_strKey hd
    refine ⟨{ error := none, count := some l.length,
              sample := some (((sortBy newsDescStr l).take 20).map enrichItem) }, ?_, ?_⟩
    · simp [pull_finnhub_news, hie, hnum, hstr]
    · simp only [hmap]

/-- An item whose timestamp is the non-numeric string `"yesterday"`. -/
def exStrItem : NewsItem :=
  { datetime := some (.str "yesterday"), datetime_iso := none,
    rest := [("headline", "markets fall")] }

/-- An item with a parseable numeric timestamp. -/
def exNumItem : NewsItem :=
  { datetime := some (.num 1700000000), datetime_iso := none,
    rest := [("headline", "markets rise")] }

/-- Witness for C8: the string-timestamp item passes through enrichment
untouched; the numeric one gains exactly the ISO field. -/
theorem news_enrichment_best_effort_witness :
    enrichItem exStrItem = exStrItem ∧
    enrichItem exNumItem = { exNumItem with datetime_iso := some (isoOfTimestamp 1700000000) } :=
  ⟨news_enrichment_best_effort.1 exStrItem "yesterday" rfl,
   news_enrichment_best_effort.2.2.1 exNumItem 1700000000 rfl (by decide) (by decide)⟩

/-- C10: a successful but EMPTY news list is falsy, so the sampler takes
the failure branch: it returns the same `{"error": "Failed to get news"}`
record a fetch failure produces — no count, no sample — making an empty
success indistinguishable from a failure at the public interface. -/
theorem news_empty_list_error_shape :
    pull_finnhub_news (.items []) = some newsFailShape ∧
    pull_finnhub_news .failed = some newsFailShape ∧
    newsFailShape.error = some "Failed to get news" ∧
    newsFailShape.count = none ∧
    newsFailShape.sample = none :=
  ⟨rfl, rfl, rfl, rfl, rfl⟩

/-- C1 (code bug): when ticker resolution yields `None` — no registry entry
matches, or the registry fetch itself failed — the unguarded hub line
`cik = resolved["cik"]` raises `TypeError` out of `collect_raw_data`
instead of returning a four-key bundle with the price and news fetches
still attempted. -/
theorem collect_raw_data_raises_on_failed_resolution
    (registry : Option (List RegistryEntry)) (secTags : String → GaapTags)
    (priceFetch : String → PriceFetch) (newsFetch : String → NewsData) (ticker : String)
    (h : resolve_ticker_to_cik registry ticker = none) :
    collect_raw_data registry secTags priceFetch newsFetch ticker =
      Except.error "TypeError: NoneType object is not subscriptable" := by
  simp [collect_raw_data, h]

/-- Witness for C1: a registry with no matching entry makes the hub raise
(return-as-error in the embedding) rather than produce a bundle. -/
theorem collect_raw_data_raises_witness :
    collect_raw_data (some []) (fun _ => noTags) (fun _ => .hist []) (fun _ => .failed)
      "ZZZZ" = Except.error "TypeError: NoneType object is not subscriptable" :=
  collect_raw_data_raises_on_failed_resolution (some []) (fun _ => noTags)
    (fun _ => .hist []) (fun _ => .failed) "ZZZZ" (by rfl)

mutual
theorem roundtrip_val : ∀ v : PVal, fromJson (toJson v) = stripTuples v
  | .null => rfl
  | .bool _ => rfl
  | .num _ => rfl
  | .str _ => rfl
  | .list xs => by rw [toJson, fromJson, stripTuples, roundtrip_list xs]
  | .tuple xs => by rw [toJson, fromJson, stripTuples, roundtrip_list xs]
  | .dict kvs => by rw [toJson, fromJson, stripTuples, roundtrip_obj kvs]

theorem roundtrip_list : ∀ xs : PList, fromJsonList (toJsonList xs) = stripTuplesList xs
  | .nil => rfl
  | .cons x xs => by
    rw [toJsonList, fromJsonList, stripTuplesList, roundtrip_val x, roundtrip_list xs]

theorem roundtrip_obj : ∀ kvs : PObj, fromJsonObj (toJsonObj kvs) = stripTuplesObj kvs
  | .nil => rfl
  | .cons k v kvs => by
    rw [toJsonObj, fromJsonObj, stripTuplesObj, roundtrip_val v, roundtrip_obj kvs]
end

mutual
theorem strip_id_val : ∀ v : PVal, tupleFree v = true → stripTuples v = v
  | .null, _ => rfl
  | .bool _, _ => rfl
  | .num _, _ => rfl
  | .str _, _ => rfl
  | .list xs, h => by
    rw [stripTuples, strip_id_list xs (by simpa [tupleFree] using h)]
  | .tuple _, h => by simp [tupleFree] at h
  | .dict kvs, h => by
    rw [stripTuples, strip_id_obj kvs (by simpa [tupleFree] using h)]

theorem strip_id_list : ∀ xs : PList, tupleFreeList xs = true → stripTuplesList xs = xs
  | .nil, _ => rfl
  | .cons x xs, h => by
    rw [stripTuplesList, strip_id_val x (by simp [tupleFreeList] at h; exact h.1),
      strip_id_list xs (by simp [tupleFreeList] at h; exact h.2)]

theorem strip_id_obj : ∀ kvs : PObj, tupleFreeObj kvs = true → stripTuplesObj kvs = kvs
  | .nil, _ => rfl
  | .cons k v kvs, h => by
    rw [stripTuplesObj, strip_id_val v (by simp [tupleFreeObj] at h; exact h.1),
      strip_id_obj kvs (by simp [tupleFreeObj] at h; exact h.2)]
end

/-- C9 (amended): reading a persisted value back yields the value with
every tuple replaced by the list of its elements; the round trip is the
identity exactly on tuple-free values.  Since a successful price slot
stores its sample as `(date, close)` tuples, such bundles do NOT round-trip
to a deep-equal value. -/
theorem persist_load_roundtrip :
    (∀ v : PVal, load_raw_json (persist_raw_json v) = stripTuples v) ∧
    (∀ v : PVal, tupleFree v = true → load_raw_json (persist_raw_json v) = v) := by
  constructor
  · intro v
    exact roundtrip_val v
  · intro v h
    rw [load_raw_json, persist_raw_json, roundtrip_val v]
    exact strip_id_val v h

/-- All thirteen filing-fact fields absent. -/
def exFacts : FinancialFacts :=
  ⟨none, none, none, none, none, none, none, none, none, none, none, none, none⟩

/-- A successful price record whose sample holds one `(date, close)`
tuple. -/
def exPrice : PriceMetrics :=
  { error := none, latest_close := some 1, oldest_close := some 1, pct_change := some 0,
    sma20 := none, sma50 := none, annualized_vol := none,
    sample := some [("2024-01-02", 1)] }

/-- A concrete bundle with a successful price slot (so its serialized form
contains a tuple). -/
def exBundle : RawBundle :=
  { meta := { ticker := "AAPL", cik := "0000320193", title := "Apple Inc." },
    sec := exFacts, prices := exPrice, news := newsFailShape }

/-- The same bundle with an error-shaped price slot: no tuples anywhere. -/
def exBundleNoTuples : RawBundle :=
  { meta := { ticker := "AAPL", cik := "0000320193", title := "Apple Inc." },
    sec := exFacts, prices := priceError "No price data returned", news := newsFailShape }

/-- Counterexample to C9 as stated: `exBundle` is a RawBundle whose
persisted-then-loaded value is NOT deep-equal to the original — the sample
tuple comes back as a list. -/
theorem persist_load_roundtrip_cex :
    load_raw_json (persist_raw_json (bundleToPVal exBundle)) ≠ bundleToPVal exBundle := by
  rw [load_raw_json, persist_raw_json, roundtrip_val (bundleToPVal exBundle)]
  simp [bundleToPVal, exBundle, resolvedToPVal, secToPVal, priceToPVal, newsToPVal,
    exFacts, exPrice, newsFailShape, optQ, PList.ofList, stripTuples, stripTuplesList,
    stripTuplesObj]

/-- Witness for the amended C9 theorem: a bundle with an error-shaped price
slot is tuple-free and round-trips to a deep-equal value. -/
theorem persist_load_roundtrip_witness :
    load_raw_json (persist_raw_json (bundleToPVal exBundleNoTuples)) =
      bundleToPVal exBundleNoTuples :=
  persist_load_roundtrip.2 (bundleToPVal exBundleNoTuples) (by decide)
